import Mathlib

/-!
Shallow embedding of `src/ffio/ffio.py` (the `FFIO` Python binding class of
the ffio repository, embedded here under the name `FFIOSession`) and proofs
about its construction, decode/encode and teardown behaviour.

The class is a thin wrapper over an external C engine reached through
`c_lib`.  Every call into the engine is recorded as an `EngineCall` trace
entry, and the values the engine would report back (the state code and
stream geometry after `api_initFFIO`, the frame handle returned by
`api_decodeOneFrame`, the integer status of the encode calls) are supplied
as explicit oracle arguments, since the engine itself is an external
dependency.  The binding module `ffio/ffio_c.py` (ctypes declarations and
enumerations) is not part of the available source; the few items the wrapper
touches from it are modelled from the spec and marked as such.
-/

namespace FfioSpec

/-- Python value carried by one codec-parameter field, as produced by
`getattr` on the ctypes parameter structure: an integer, a boolean, or a
byte string (byte strings are modelled as lists of byte values). -/
inductive CVal where
  | int (n : Int)
  | bool (b : Bool)
  | bytes (s : List Nat)
deriving DecidableEq, Repr

/-- Modelled from the spec: the PTS-trick enumeration `FFIOPTSTrick` is
declared in the binding module `ffio/ffio_c.py`, which is not part of the
available source.  The spec names the two policies: `Even` (live push
transports) and `Increase` (file-like targets), with the sentinel -1 on the
parameter field meaning auto-resolution.  The numeric values of the members
are not recorded in the available source; they are chosen here distinct
from each other and from the sentinel -1, which is all the wrapper code
depends on. -/
inductive FFIOPTSTrick where
  | FFIO_PTS_TRICK_EVEN
  | FFIO_PTS_TRICK_INCREASE
deriving DecidableEq, Repr

/-- Numeric `.value` of an `FFIOPTSTrick` enumeration member. -/
def FFIOPTSTrick.value : FFIOPTSTrick → Int
  | .FFIO_PTS_TRICK_EVEN => 0
  | .FFIO_PTS_TRICK_INCREASE => 1

/-- Modelled from the spec: `CCodecParams` is declared in the missing
binding module `ffio/ffio_c.py`; the spec describes it as an opaque bag of
engine-defined knobs (bitrate, GOP size, PTS correction mode, ...) of which
the wrapper inspects only `ptsTrick`.  `pts_trick` is therefore kept as an
explicit field, defaulting to the auto sentinel -1 per the spec; the
remaining fields are carried generically as named values, matching the
wrapper's own dynamic `dir`/`getattr` introspection over them
(ffio.py 59-64). -/
structure CCodecParams where
  pts_trick : Int := -1
  others : List (String × CVal) := []
deriving DecidableEq, Repr

/-- The two session modes (`FFIOMode` of the missing `ffio/ffio_c.py`,
named by the spec as the enum {Decode, Encode}). -/
inductive FFIOMode where
  | DECODE
  | ENCODE
deriving DecidableEq, Repr

/-- The `mode` argument of the Python constructor `__init__` may be a string or an
`FFIOMode` member (ffio.py 48-56). -/
inductive ModeArg where
  | str (s : String)
  | enum (m : FFIOMode)
deriving DecidableEq, Repr

/-- Python `str.lower()` restricted to ASCII case mapping, computed
characterwise on the underlying character list so that the kernel can
evaluate it on concrete inputs.  All the strings the wrapper compares a
lowercased value against are ASCII; Python additionally lowercases
non-ASCII letters, which is outside this model. -/
def pyLower (s : String) : String := ⟨s.data.map Char.toLower⟩

/-- Python `str.startswith(p)`, computed on the underlying character lists
so that the kernel can evaluate it on concrete inputs. -/
def pyStartsWith (s p : String) : Bool := p.data.isPrefixOf s.data

/-- Message of the `ValueError` raised for an invalid mode string
(ffio.py 54). -/
def modeErrMsg (s : String) : String :=
  ("the kwarg `mode`=") ++ s ++ (" is invalid.")

/-- ffio.py 48-56: normalisation of the `mode` argument.  A string is
lowercased and matched against the encoder aliases first, then the decoder
aliases; anything else raises `ValueError`.  A non-string is stored as is. -/
def resolveMode : ModeArg → Except String FFIOMode
  | .str s =>
      if pyLower s == ("encoder") || pyLower s == ("encode") then
        .ok FFIOMode.ENCODE
      else if pyLower s == ("decoder") || pyLower s == ("decode") then
        .ok FFIOMode.DECODE
      else
        .error (modeErrMsg s)
  | .enum m => .ok m

/-- The three field names removed from the checked parameter list before the
decode-mode validation loop (ffio.py 60-62). -/
def dontCareParams : List String := ["flags", "flags2", "sei_uuid"]

/-- Python membership test `v in [0, -1, b'', True, False]` (ffio.py 64).
Python `in` compares with `==`, and Python booleans compare equal to
integers (True == 1, False == 0), so an integer passes iff it is 0, -1 or
1, every boolean passes, and a byte string passes iff it is empty. -/
def inRestrictedList : CVal → Bool
  | .int n => n == 0 || n == -1 || n == 1
  | .bool _ => true
  | .bytes s => s == []

/-- The field list produced by the `dir`/`getattr` introspection over a
`CCodecParams` instance: the inspected `pts_trick` field together with the
generically carried remaining fields. -/
def CCodecParams.fieldList (cp : CCodecParams) : List (String × CVal) :=
  (("pts_trick", CVal.int cp.pts_trick)) :: cp.others

/-- ffio.py 58-65: the decode-mode parameter validation.  True iff every
field other than the three don't-care fields passes the membership test
`inRestrictedList`; when false the constructor raises `ValueError`. -/
def decodeParamsCheck (cp : CCodecParams) : Bool :=
  cp.fieldList.all (fun p => dontCareParams.contains p.1 || inRestrictedList p.2)

/-- The decode-mode validation is only performed when `codec_params` was
actually supplied (`codec_params is not None`, ffio.py 58). -/
def decodeParamsOk : Option CCodecParams → Bool
  | none => true
  | some cp => decodeParamsCheck cp

/-- Message of the `ValueError` raised by the decode-mode parameter
validation (ffio.py 65). -/
def decodeParamsErrMsg : String :=
  "`codec_params` should restrict most params when `mode` is FFIOMode.DECODE"

/-- The compiled pattern `^cuda:\d{1,2}$` applied with `re.search`
(ffio.py 70 and 73): since the pattern is anchored at both ends this is a
full match — the literal lowercase `cuda:` followed by one or two digits
and nothing else.  (Python `\d` also accepts non-ASCII decimal digits and
`$` also matches just before a single trailing newline; those re corner
cases are outside this model, which uses ASCII digits and a strict end.) -/
def cudaPatternMatch (s : String) : Bool :=
  pyStartsWith s ("cuda:") &&
    ((s.data.drop 5).length == 1 || (s.data.drop 5).length == 2) &&
    (s.data.drop 5).all (fun c => c.isDigit)

/-- Message of the `ValueError` raised for a malformed `hw_device` string
(ffio.py 76). -/
def hwDeviceErrMsg : String :=
  "`hw_device` should be set as bool or string like `cuda:0`"

/-- ffio.py 69-78: resolution of the `hw_device` argument.
`default_hw_device` is the class-level platform default (ffio.py 38:
"cuda", or "videotoolbox" on Darwin), kept when the argument is empty. -/
def resolveHwDevice (default_hw_device : String) (hw_device : String) :
    Except String String :=
  if hw_device.data.length > 0 then
    if pyLower hw_device == ("cuda") then .ok ("cuda:0")
    else if cudaPatternMatch hw_device then .ok hw_device
    else .error hwDeviceErrMsg
  else .ok default_hw_device

/-- ffio.py 38: the class-level default hardware device, by platform. -/
def defaultHwDevice (isDarwin : Bool) : String :=
  if isDarwin then "videotoolbox" else "cuda"

/-- ffio.py 270-277 `FFIOSession._auto_set_pts_trick`: when `pts_trick` is the
sentinel -1 it is overwritten with the `Even` policy value for rtmp/rtsp/srt
target URLs and with the `Increase` policy value otherwise; a non-sentinel
value is left untouched. -/
def auto_set_pts_trick (target_url : String) (cp : CCodecParams) : CCodecParams :=
  if cp.pts_trick == -1 then
    if pyStartsWith target_url ("rtmp://") || pyStartsWith target_url ("rtsp://")
        || pyStartsWith target_url ("srt://") then
      { cp with pts_trick := FFIOPTSTrick.FFIO_PTS_TRICK_EVEN.value }
    else
      { cp with pts_trick := FFIOPTSTrick.FFIO_PTS_TRICK_INCREASE.value }
  else cp

/-- The fields of the engine-side `CFFIO` struct that the wrapper reads back
after `api_initFFIO` (ffio.py 119-126): the state code and the negotiated
stream geometry.  The framerate is only ever copied verbatim by the
wrapper, so its numeric type is irrelevant to the wrapper logic; it is
carried as an integer here. -/
structure CFFIOAfterInit where
  ffio_state : Int
  image_width : Int
  image_height : Int
  framerate : Int
deriving DecidableEq, Repr

/-- The arguments the wrapper passes to `c_lib.api_initFFIO`
(ffio.py 96-115). -/
structure InitCallArgs where
  int_mode : Int
  target_url : String
  hw_enabled : Bool
  pix_fmt_hw_enabled : Bool
  hw_device : String
  shm_enabled : Bool
  shm_name : String
  shm_size : Int
  shm_offset : Int
  codec_params : CCodecParams
deriving DecidableEq, Repr

/-- One call into the engine library `c_lib`, recorded as a trace entry. -/
inductive EngineCall where
  | newFFIOCall
  | initFFIOCall (args : InitCallArgs)
  | decodeOneFrame (sei_filter : Option String)
  | decodeOneFrameToShm (offset : Int) (sei_filter : Option String)
  | encodeOneFrame (data : List Nat) (sei_msg : Option String) (sei_msg_size : Nat)
  | encodeOneFrameFromShm (offset : Int) (sei_msg : Option String) (sei_msg_size : Nat)
  | finalizeFFIOCall
  | deleteFFIOCall
deriving DecidableEq, Repr

/-- The arguments of the first `api_initFFIO` entry of a trace, if any. -/
def initCallOf (tr : List EngineCall) : Option InitCallArgs :=
  tr.findSome? (fun c => match c with | .initFFIOCall a => some a | _ => none)

/-- The Python session object (class `FFIO` in ffio.py, embedded under
the name `FFIOSession`): its attributes after construction, ffio.py 23-35.  `c_ffio_state` models the `ffio_state` field read through
`_c_ffio_ptr` (`none` once the pointer has been set to `None` by
`release_memory`); after a failed open the pointer is deleted but not
nulled, and the model keeps the state code the engine last reported. -/
structure FFIOSession where
  target_url : Option String
  mode : FFIOMode
  hw_enabled : Bool
  pix_fmt_hw_enabled : Bool
  hw_device : String
  shm_enabled : Bool
  frame_seq_py : Int
  codec_params : Option CCodecParams
  width : Int
  height : Int
  framerate : Int
  c_ffio_state : Option Int
deriving DecidableEq, Repr

/-- ffio.py 148-152 `FFIOSession.__bool__`: the session is truthy iff the live
state code read through the engine pointer is 1 or 2. -/
def FFIOSession.toBool (s : FFIOSession) : Bool :=
  s.c_ffio_state == some 1 || s.c_ffio_state == some 2

/-- The keyword arguments of the Python constructor `__init__` with their defaults
(ffio.py 40-44). -/
structure InitArgs where
  target_url : String
  mode : ModeArg := ModeArg.enum FFIOMode.DECODE
  hw_enabled : Bool := false
  pix_fmt_hw_enabled : Bool := false
  hw_device : String := ""
  shm_name : Option String := none
  shm_size : Int := 0
  shm_offset : Int := 0
  codec_params : Option CCodecParams := none
deriving DecidableEq, Repr

/-- ffio.py 86-93: the local `pix_fmt_hw_enabled` variable handed to the
engine is overwritten to False (after a printed warning) when it is True
while `hw_enabled` is False; the attribute stored on the object at line 80
is not touched. -/
def pixFmtPassed (hw_enabled pix_fmt_hw_enabled : Bool) : Bool :=
  if pix_fmt_hw_enabled && !hw_enabled then false else pix_fmt_hw_enabled

/-- ffio.py 95-134: the engine-call phase of the constructor.  The
`api_initFFIO` call receives literal `"", 0, 0` for the shared-memory
descriptor when no `shm_name` was supplied.  Afterwards, only state code 1
takes the success branch mirroring width/height/framerate; every other
state code takes the failure branch, which immediately calls
`api_deleteFFIO` and zeroes the three fields. -/
def openOutcome (mode : FFIOMode) (a : InitArgs) (hw_device : String)
    (cp : CCodecParams) (eng : CFFIOAfterInit) : FFIOSession × List EngineCall :=
  let int_mode : Int := if mode == FFIOMode.DECODE then 0 else 1
  let shm_enabled := a.shm_name.isSome
  let call := EngineCall.initFFIOCall
    { int_mode, target_url := a.target_url, hw_enabled := a.hw_enabled,
      pix_fmt_hw_enabled := pixFmtPassed a.hw_enabled a.pix_fmt_hw_enabled,
      hw_device, shm_enabled,
      shm_name := a.shm_name.getD (""),
      shm_size := if shm_enabled then a.shm_size else 0,
      shm_offset := if shm_enabled then a.shm_offset else 0,
      codec_params := cp }
  if eng.ffio_state == 1 then
    ({ target_url := some a.target_url, mode, hw_enabled := a.hw_enabled,
       pix_fmt_hw_enabled := a.pix_fmt_hw_enabled, hw_device, shm_enabled,
       frame_seq_py := 0, codec_params := some cp,
       width := eng.image_width, height := eng.image_height,
       framerate := eng.framerate, c_ffio_state := some eng.ffio_state },
     [EngineCall.newFFIOCall, call])
  else
    ({ target_url := some a.target_url, mode, hw_enabled := a.hw_enabled,
       pix_fmt_hw_enabled := a.pix_fmt_hw_enabled, hw_device, shm_enabled,
       frame_seq_py := 0, codec_params := some cp,
       width := 0, height := 0, framerate := 0,
       c_ffio_state := some eng.ffio_state },
     [EngineCall.newFFIOCall, call, EngineCall.deleteFFIOCall])

/-- ffio.py 40-134 the Python constructor `__init__`.  The engine's response to the open call
is supplied as the oracle `eng`.  The three `raise ValueError` sites are
returned as `.error` with the source's message and an empty engine-call
trace, since they all happen before `api_newFFIO` is reached.  The codec
parameters passed to the engine are the supplied ones (or a fresh default
bag) after `_auto_set_pts_trick` has run on them (ffio.py 82-83). -/
def FFIOSession.init (default_hw_device : String) (a : InitArgs)
    (eng : CFFIOAfterInit) : Except String FFIOSession × List EngineCall :=
  match resolveMode a.mode with
  | .error e => (.error e, [])
  | .ok mode =>
    if mode == FFIOMode.DECODE && !(decodeParamsOk a.codec_params) then
      (.error decodeParamsErrMsg, [])
    else
      match resolveHwDevice default_hw_device a.hw_device with
      | .error e => (.error e, [])
      | .ok hw_device =>
        let cp := auto_set_pts_trick a.target_url (a.codec_params.getD {})
        let out := openOutcome mode a hw_device cp eng
        (.ok out.1, out.2)

/-- Modelled from the spec: `CFFIOFrame` is declared in the missing binding
module `ffio/ffio_c.py`; the spec describes it as an opaque handle whose
boolean truthiness (its "validity flag") indicates decode success for the
call.  Only that flag is relevant to the wrapper logic. -/
structure CFFIOFrame where
  truthy : Bool
deriving DecidableEq, Repr

/-- A numpy array, of which the wrapper only ever uses the `tobytes`
serialization (ffio.py 236); it is carried here as that serialization. -/
structure NDArray where
  tobytes : List Nat
deriving DecidableEq, Repr

/-- The runtime type dispatch of `encode_one_frame` over its `rgb_image`
argument (ffio.py 226-242): a byte string, a numpy array, the PIL `Image`
branch, or any other type (which falls through to the final
`return False`). -/
inductive RGBImage where
  | bytes (data : List Nat)
  | ndarray (nd : NDArray)
  | image
  | other
deriving DecidableEq, Repr

/-- ffio.py 224-225 and 250-251: `len(sei_msg.encode()) + 1` when a message
was supplied (ctypes appends the terminating NUL), else 0. -/
def seiMsgSize : Option String → Nat
  | some m => m.utf8ByteSize + 1
  | none => 0

/-- ffio.py 166-191 `decode_one_frame`.  The frame the engine returns is
the oracle `f`; its truthiness decides whether `frame_seq_py` is bumped.
The Python body contains no raise path, hence the result is always `.ok`,
and the only engine call issued is `api_decodeOneFrame`. -/
def FFIOSession.decode_one_frame (s : FFIOSession) (f : CFFIOFrame)
    (sei_filter : Option String) :
    Except String (FFIOSession × CFFIOFrame × List EngineCall) :=
  .ok (if f.truthy then { s with frame_seq_py := s.frame_seq_py + 1 } else s,
       f, [EngineCall.decodeOneFrame sei_filter])

/-- ffio.py 193-203 `decode_one_frame_to_shm`: same logic as
`decode_one_frame`, calling `api_decodeOneFrameToShm` with the byte
offset. -/
def FFIOSession.decode_one_frame_to_shm (s : FFIOSession) (f : CFFIOFrame) (offset : Int)
    (sei_filter : Option String) :
    Except String (FFIOSession × CFFIOFrame × List EngineCall) :=
  .ok (if f.truthy then { s with frame_seq_py := s.frame_seq_py + 1 } else s,
       f, [EngineCall.decodeOneFrameToShm offset sei_filter])

/-- The byte-string branch of `encode_one_frame` (ffio.py 227-233): call
`api_encodeOneFrame` and report success — bumping `frame_seq_py` — exactly
when the returned status is 0.  The numpy branch of `encode_one_frame`
re-enters `encode_one_frame` on `rgb_image.tobytes()` (ffio.py 235-237),
which lands in this branch; the branch is split out as a named function so
that the one-step delegation needs no recursion. -/
def FFIOSession.encode_bytes_branch (s : FFIOSession) (ret : Int) (data : List Nat)
    (sei_msg : Option String) :
    Except String (FFIOSession × Bool × List EngineCall) :=
  let calls := [EngineCall.encodeOneFrame data sei_msg (seiMsgSize sei_msg)]
  if ret == 0 then
    .ok ({ s with frame_seq_py := s.frame_seq_py + 1 }, true, calls)
  else
    .ok (s, false, calls)

/-- ffio.py 205-242 `encode_one_frame`.  `ret` is the oracle integer status
of `api_encodeOneFrame`.  The byte-string branch calls the engine and
reports success exactly when the status is 0; the numpy branch delegates to
the byte-string branch on `tobytes`; the PIL `Image` branch and the
fall-through both report False without any engine call. -/
def FFIOSession.encode_one_frame (s : FFIOSession) (ret : Int) (rgb_image : RGBImage)
    (sei_msg : Option String) :
    Except String (FFIOSession × Bool × List EngineCall) :=
  match rgb_image with
  | .bytes data => FFIOSession.encode_bytes_branch s ret data sei_msg
  | .ndarray nd => FFIOSession.encode_bytes_branch s ret nd.tobytes sei_msg
  | .image => .ok (s, false, [])
  | .other => .ok (s, false, [])

/-- ffio.py 244-257 `encode_one_frame_from_shm`.  `ret` is the oracle value
returned by `api_encodeOneFrameFromShm` (the available source declares no
ctypes result type for it, so it is carried as the integer of the C call
convention).  The Python code bumps `frame_seq_py` when `ret` is truthy
(nonzero) and returns `ret` itself. -/
def FFIOSession.encode_one_frame_from_shm (s : FFIOSession) (ret : Int) (offset : Int)
    (sei_msg : Option String) :
    Except String (FFIOSession × Int × List EngineCall) :=
  let calls := [EngineCall.encodeOneFrameFromShm offset sei_msg (seiMsgSize sei_msg)]
  if ret != 0 then
    .ok ({ s with frame_seq_py := s.frame_seq_py + 1 }, ret, calls)
  else
    .ok (s, ret, calls)

/-- ffio.py 259-268 `release_memory`: finalize then delete the engine
handle, null the local references and zero `width`, `height` and
`frame_seq_py`.  Note the source zeroes `width` and `height` but not
`framerate`. -/
def FFIOSession.release_memory (s : FFIOSession) : FFIOSession × List EngineCall :=
  ({ s with target_url := none, c_ffio_state := none, codec_params := none,
            width := 0, height := 0, frame_seq_py := 0 },
   [EngineCall.finalizeFFIOCall, EngineCall.deleteFFIOCall])

/-- Equality of wrapper results is decidable (used to evaluate the model on
concrete inputs). -/
instance instDecEqExcept {ε α : Type} [DecidableEq ε] [DecidableEq α] :
    DecidableEq (Except ε α)
  | .error e, .error e' =>
      if h : e = e' then .isTrue (by rw [h]) else
        .isFalse (fun hc => h (by cases hc; rfl))
  | .error _, .ok _ => .isFalse (fun hc => Except.noConfusion hc)
  | .ok _, .error _ => .isFalse (fun hc => Except.noConfusion hc)
  | .ok a, .ok a' =>
      if h : a = a' then .isTrue (by rw [h]) else
        .isFalse (fun hc => h (by cases hc; rfl))

/-- Sample construction arguments: a file target with every other argument
left at its default. -/
def fileArgs : InitArgs := { target_url := "file.mp4" }

/-- Sample engine response reporting the primary open state code 1 and a
640x480 stream at framerate 25. -/
def engOk : CFFIOAfterInit :=
  { ffio_state := 1, image_width := 640, image_height := 480, framerate := 25 }

/-- Sample engine response reporting the secondary open state code 2 with
the same geometry. -/
def engStateTwo : CFFIOAfterInit :=
  { ffio_state := 2, image_width := 640, image_height := 480, framerate := 25 }

/-- The session produced by `FFIOSession.init "cuda" fileArgs engOk`. -/
def fileSessionOk : FFIOSession :=
  { target_url := some ("file.mp4"), mode := FFIOMode.DECODE,
    hw_enabled := false, pix_fmt_hw_enabled := false, hw_device := "cuda",
    shm_enabled := false, frame_seq_py := 0,
    codec_params := some { pts_trick := 1, others := [] },
    width := 640, height := 480, framerate := 25, c_ffio_state := some 1 }

/-- The `api_initFFIO` arguments passed by `FFIOSession.init "cuda" fileArgs`. -/
def fileInitCallArgs : InitCallArgs :=
  { int_mode := 0, target_url := "file.mp4", hw_enabled := false,
    pix_fmt_hw_enabled := false, hw_device := "cuda", shm_enabled := false,
    shm_name := "", shm_size := 0, shm_offset := 0,
    codec_params := { pts_trick := 1, others := [] } }

/-- The engine-call trace produced by `FFIOSession.init "cuda" fileArgs engOk`. -/
def fileTraceOk : List EngineCall :=
  [EngineCall.newFFIOCall, EngineCall.initFFIOCall fileInitCallArgs]

/-- A sample already-open session used to exercise the per-frame calls. -/
def sampleSession : FFIOSession :=
  { target_url := some ("file.mp4"), mode := FFIOMode.ENCODE,
    hw_enabled := false, pix_fmt_hw_enabled := false, hw_device := "cuda",
    shm_enabled := false, frame_seq_py := 0, codec_params := some {},
    width := 640, height := 480, framerate := 25, c_ffio_state := some 1 }

/-- Codec parameters whose integer field `bitrate` is set to 1 (away from
its zero default), every other field at its default. -/
def bitrateOneParams : CCodecParams :=
  { pts_trick := -1, others := [("bitrate", CVal.int 1)] }

/-- Codec parameters whose byte-string field `preset` is set to a non-empty
value, every other field at its default. -/
def presetSetParams : CCodecParams :=
  { pts_trick := -1, others := [("preset", CVal.bytes [118, 102])] }

/-- The beq of two some-wrapped integers is the beq of the integers. -/
theorem option_some_beq (x y : Int) :
    ((some x : Option Int) == some y) = (x == y) := rfl

/-- Basic fields of the session built by the engine-call phase: the counter
starts at 0, the stored pixel-format attribute is the caller's argument,
and the recorded state code is the engine's. -/
theorem openOutcome_session_base (mode : FFIOMode) (a : InitArgs)
    (hw_device : String) (cp : CCodecParams) (eng : CFFIOAfterInit) :
    (openOutcome mode a hw_device cp eng).1.frame_seq_py = 0 ∧
    (openOutcome mode a hw_device cp eng).1.pix_fmt_hw_enabled = a.pix_fmt_hw_enabled ∧
    (openOutcome mode a hw_device cp eng).1.c_ffio_state = some eng.ffio_state := by
  simp only [openOutcome]
  split <;> exact ⟨rfl, rfl, rfl⟩

/-- The engine-call phase always issues exactly one `api_initFFIO` call,
carrying the downgraded pixel-format flag and the resolved codec
parameters. -/
theorem openOutcome_initCall (mode : FFIOMode) (a : InitArgs)
    (hw_device : String) (cp : CCodecParams) (eng : CFFIOAfterInit) :
    initCallOf (openOutcome mode a hw_device cp eng).2 =
      some { int_mode := if mode == FFIOMode.DECODE then 0 else 1,
             target_url := a.target_url, hw_enabled := a.hw_enabled,
             pix_fmt_hw_enabled := pixFmtPassed a.hw_enabled a.pix_fmt_hw_enabled,
             hw_device, shm_enabled := a.shm_name.isSome,
             shm_name := a.shm_name.getD (""),
             shm_size := if a.shm_name.isSome then a.shm_size else 0,
             shm_offset := if a.shm_name.isSome then a.shm_offset else 0,
             codec_params := cp } := by
  simp only [openOutcome, initCallOf]
  split <;> split <;> simp [List.findSome?]

/-- The success branch of the engine-call phase (state code 1): geometry is
mirrored and the handle is not deleted. -/
theorem openOutcome_success (mode : FFIOMode) (a : InitArgs)
    (hw_device : String) (cp : CCodecParams) (eng : CFFIOAfterInit)
    (h : eng.ffio_state = 1) :
    (openOutcome mode a hw_device cp eng).1.width = eng.image_width ∧
    (openOutcome mode a hw_device cp eng).1.height = eng.image_height ∧
    (openOutcome mode a hw_device cp eng).1.framerate = eng.framerate ∧
    EngineCall.deleteFFIOCall ∉ (openOutcome mode a hw_device cp eng).2 := by
  simp only [openOutcome]
  simp [h]

/-- The failure branch of the engine-call phase (any state code other
than 1): geometry is zeroed and the handle is deleted. -/
theorem openOutcome_failure (mode : FFIOMode) (a : InitArgs)
    (hw_device : String) (cp : CCodecParams) (eng : CFFIOAfterInit)
    (h : ¬ eng.ffio_state = 1) :
    (openOutcome mode a hw_device cp eng).1.width = 0 ∧
    (openOutcome mode a hw_device cp eng).1.height = 0 ∧
    (openOutcome mode a hw_device cp eng).1.framerate = 0 ∧
    EngineCall.deleteFFIOCall ∈ (openOutcome mode a hw_device cp eng).2 := by
  have hb : (eng.ffio_state == 1) = false := beq_eq_false_iff_ne.mpr h
  simp only [openOutcome]
  simp [hb]

/-- Elimination form of a successfully constructed session: the mode and
device resolutions succeeded, the decode-parameter validation passed, and
session and trace are those of the engine-call phase run on the
pts-resolved parameter bag. -/
theorem init_ok_elim {d : String} {a : InitArgs} {eng : CFFIOAfterInit}
    {s : FFIOSession} {tr : List EngineCall}
    (h : FFIOSession.init d a eng = (.ok s, tr)) :
    ∃ mode hw_device,
      resolveMode a.mode = .ok mode ∧
      (mode == FFIOMode.DECODE && !(decodeParamsOk a.codec_params)) = false ∧
      resolveHwDevice d a.hw_device = .ok hw_device ∧
      s = (openOutcome mode a hw_device
            (auto_set_pts_trick a.target_url (a.codec_params.getD {})) eng).1 ∧
      tr = (openOutcome mode a hw_device
            (auto_set_pts_trick a.target_url (a.codec_params.getD {})) eng).2 := by
  unfold FFIOSession.init at h
  split at h
  next e heq => exact absurd h (by simp)
  next mode heq =>
    split at h
    next hdc => exact absurd h (by simp)
    next hdc =>
      split at h
      next e heq2 => exact absurd h (by simp)
      next dev heq2 =>
        simp only [Prod.mk.injEq, Except.ok.injEq] at h
        exact ⟨mode, dev, heq, Bool.eq_false_iff.mpr hdc, heq2, h.1.symm, h.2.symm⟩

/-- A Bool `all` over a list is false exactly when some element fails the
predicate. -/
theorem all_eq_false_iff {α : Type} (l : List α) (f : α → Bool) :
    l.all f = false ↔ ∃ x ∈ l, f x = false := by
  induction l with
  | nil => simp
  | cons x xs ih =>
    simp only [List.all_cons, Bool.and_eq_false_iff, ih, List.exists_mem_cons_iff]

/-- C1 counterexample: the claim says that for a state code among the two
"open" codes (1 and 2) the session is valid with width/height/framerate
mirroring the engine-reported values.  With the engine reporting state
code 2 and geometry 640x480 at framerate 25, the constructed session is
indeed truthy (valid), but its width/height/framerate are all 0 — not the
engine values — and the engine handle has been deleted: the constructor's
success branch tests `ffio_state == 1` only (ffio.py 119), so code 2 lands
in the failure branch even though `__bool__` counts it as open. -/
theorem open_state_two_counterexample :
    ((FFIOSession.init ("cuda") fileArgs engStateTwo).1).toOption.map
        (fun s => (s.toBool, s.width, s.height, s.framerate))
      = some (true, 0, 0, 0) ∧
    EngineCall.deleteFFIOCall ∈ (FFIOSession.init ("cuda") fileArgs engStateTwo).2 ∧
    (engStateTwo.image_width, engStateTwo.image_height, engStateTwo.framerate)
      = (640, 480, 25) := by decide

/-- C1 (amended): for every construction attempt that reaches the engine
open call, the session's truthiness equals "state code is 1 or 2", but the
mirroring of the engine-reported width/height/framerate happens only for
state code 1 (with no handle deletion); for every state code other than 1 —
including the second open code 2 — the engine handle is immediately deleted
and width, height and framerate are all 0. -/
theorem open_state_handling (d : String) (a : InitArgs) (eng : CFFIOAfterInit)
    (s : FFIOSession) (tr : List EngineCall)
    (h : FFIOSession.init d a eng = (.ok s, tr)) :
    s.toBool = (eng.ffio_state == 1 || eng.ffio_state == 2) ∧
    (eng.ffio_state = 1 →
      s.width = eng.image_width ∧ s.height = eng.image_height ∧
      s.framerate = eng.framerate ∧ EngineCall.deleteFFIOCall ∉ tr) ∧
    (eng.ffio_state ≠ 1 →
      s.width = 0 ∧ s.height = 0 ∧ s.framerate = 0 ∧
      EngineCall.deleteFFIOCall ∈ tr) := by
  obtain ⟨mode, dev, hm, hdc, hd, hs, ht⟩ := init_ok_elim h
  subst hs; subst ht
  refine ⟨?_, ?_, ?_⟩
  · have hbase := (openOutcome_session_base mode a dev
      (auto_set_pts_trick a.target_url (a.codec_params.getD {})) eng).2.2
    rw [FFIOSession.toBool, hbase, option_some_beq, option_some_beq]
  · intro h1
    exact openOutcome_success mode a dev _ eng h1
  · intro h1
    exact openOutcome_failure mode a dev _ eng h1

/-- C1 witness: at the primary open state code 1 with engine geometry
640x480 at framerate 25, the session is valid, mirrors the geometry, and
no handle deletion is traced. -/
theorem open_state_handling_witness :
    fileSessionOk.toBool = true ∧ fileSessionOk.width = 640 ∧
    fileSessionOk.height = 480 ∧ fileSessionOk.framerate = 25 ∧
    EngineCall.deleteFFIOCall ∉ fileTraceOk := by
  have h := open_state_handling ("cuda") fileArgs engOk fileSessionOk
    fileTraceOk (by decide)
  have h1 := h.2.1 (by decide)
  exact ⟨h.1.trans (by decide), h1.1, h1.2.1, h1.2.2.1, h1.2.2.2⟩

/-- C2 counterexample: the claim says any parameter field (outside the
three don't-care fields) deviating from its zero/empty/false default makes
a Decode construction fail before any engine call.  But a Decode
construction whose `bitrate` field is set to the integer 1 — away from its
zero default — succeeds, and the engine open call is made: Python's
allowed-value list `[0, -1, b'', True, False]` contains True, which
compares equal to the integer 1. -/
theorem decode_params_bitrate_one_counterexample :
    ((FFIOSession.init ("cuda")
        { target_url := ("file.mp4"),
          mode := ModeArg.enum FFIOMode.DECODE,
          codec_params := some bitrateOneParams } engOk).1).isOk = true ∧
    initCallOf (FFIOSession.init ("cuda")
        { target_url := ("file.mp4"),
          mode := ModeArg.enum FFIOMode.DECODE,
          codec_params := some bitrateOneParams } engOk).2 ≠ none := by decide

/-- C2 (amended): a Decode construction with a supplied parameter bag fails
— with the decode validation error and before any engine call — exactly
when some field other than the three don't-care fields (flags, flags2,
sei_uuid) holds a value outside Python's allowed list
`[0, -1, b'', True, False]` under Python equality, which identifies True
with 1 and False with 0.  In particular integer fields set to -1 or 1 and
boolean fields set to True, though away from their zero/false defaults, do
not fail. -/
theorem decode_params_validation (url : String) (cp : CCodecParams)
    (eng : CFFIOAfterInit) :
    (decodeParamsCheck cp = false ↔
      ∃ p ∈ cp.fieldList, dontCareParams.contains p.1 = false ∧
        inRestrictedList p.2 = false) ∧
    (decodeParamsCheck cp = false →
      FFIOSession.init ("cuda")
        { target_url := url, mode := ModeArg.enum FFIOMode.DECODE,
          codec_params := some cp } eng = (.error decodeParamsErrMsg, [])) ∧
    (decodeParamsCheck cp = true →
      ((FFIOSession.init ("cuda")
        { target_url := url, mode := ModeArg.enum FFIOMode.DECODE,
          codec_params := some cp } eng).1).isOk = true) := by
  refine ⟨?_, ?_, ?_⟩
  · have h := all_eq_false_iff cp.fieldList
      (fun p => dontCareParams.contains p.1 || inRestrictedList p.2)
    simpa only [decodeParamsCheck, Bool.or_eq_false_iff] using h
  · intro hfalse
    unfold FFIOSession.init
    simp [resolveMode, decodeParamsOk, hfalse]
  · intro htrue
    have hrd : resolveHwDevice ("cuda") ("") = Except.ok ("cuda") := rfl
    unfold FFIOSession.init
    simp [resolveMode, decodeParamsOk, htrue, hrd, Except.isOk, Except.toBool]

/-- C2 witness: a Decode construction whose byte-string field `preset` is
set to a non-empty value fails with the decode validation error before any
engine call. -/
theorem decode_params_validation_witness :
    FFIOSession.init ("cuda")
        { target_url := ("file.mp4"),
          mode := ModeArg.enum FFIOMode.DECODE,
          codec_params := some presetSetParams } engOk
      = (.error decodeParamsErrMsg, []) :=
  (decode_params_validation ("file.mp4") presetSetParams engOk).2.1 (by decide)

/-- C3: pts-trick auto-resolution: the sentinel -1 resolves to the Even
policy value for URLs starting with rtmp://, rtsp:// or srt:// and to the
Increase policy value for every other URL; a non-sentinel value is left
unchanged; and the parameter bag recorded in the engine open call is
exactly the pts-resolved one, so the write-back precedes the open call. -/
theorem pts_trick_auto_resolution (url : String) (cp : CCodecParams) :
    (cp.pts_trick = -1 →
      (auto_set_pts_trick url cp).pts_trick =
        (if pyStartsWith url ("rtmp://") || pyStartsWith url ("rtsp://")
            || pyStartsWith url ("srt://")
         then FFIOPTSTrick.FFIO_PTS_TRICK_EVEN.value
         else FFIOPTSTrick.FFIO_PTS_TRICK_INCREASE.value)) ∧
    (cp.pts_trick ≠ -1 → auto_set_pts_trick url cp = cp) ∧
    (∀ (d : String) (a : InitArgs) (eng : CFFIOAfterInit) (s : FFIOSession)
        (tr : List EngineCall) (args : InitCallArgs),
      FFIOSession.init d a eng = (.ok s, tr) → initCallOf tr = some args →
      args.codec_params
        = auto_set_pts_trick a.target_url (a.codec_params.getD {})) := by
  refine ⟨?_, ?_, ?_⟩
  · intro h
    have hb : (cp.pts_trick == -1) = true := by rw [h]; rfl
    simp only [auto_set_pts_trick, hb, if_true]
    split <;> rfl
  · intro h
    have hb : (cp.pts_trick == -1) = false := beq_eq_false_iff_ne.mpr h
    simp [auto_set_pts_trick, hb]
  · intro d a eng s tr args hinit hcall
    obtain ⟨mode, dev, hm, hdc, hd, hs, ht⟩ := init_ok_elim hinit
    subst ht
    rw [openOutcome_initCall] at hcall
    injection hcall with hargs
    rw [← hargs]

/-- C3 witness: the sentinel resolves to Even for an rtsp URL, a
non-sentinel value 7 is kept, and the open call of the sample file
construction records the pts-resolved bag. -/
theorem pts_trick_auto_resolution_witness :
    (auto_set_pts_trick ("rtsp://cam/1") {}).pts_trick
        = FFIOPTSTrick.FFIO_PTS_TRICK_EVEN.value ∧
    auto_set_pts_trick ("file.mp4") { pts_trick := 7 } = { pts_trick := 7 } ∧
    fileInitCallArgs.codec_params
        = auto_set_pts_trick fileArgs.target_url (fileArgs.codec_params.getD {}) := by
  have h := pts_trick_auto_resolution ("rtsp://cam/1") ({} : CCodecParams)
  have h2 := pts_trick_auto_resolution ("file.mp4")
    ({ pts_trick := 7 } : CCodecParams)
  refine ⟨(h.1 rfl).trans (by decide), h2.2.1 (by decide), ?_⟩
  exact h.2.2 ("cuda") fileArgs engOk fileSessionOk fileTraceOk fileInitCallArgs
    (by decide) (by decide)

/-- C4: hardware-device resolution: an empty string keeps the platform
default device; "cuda" compared case-insensitively canonicalizes to
"cuda:0"; a string matching the anchored pattern `cuda:` followed by one
or two digits is stored unchanged; every other non-empty string fails
construction with the device validation error. -/
theorem hw_device_resolution (d dev : String) :
    (dev = ("") → resolveHwDevice d dev = .ok d) ∧
    (dev ≠ ("") → pyLower dev = ("cuda") →
      resolveHwDevice d dev = .ok ("cuda:0")) ∧
    (dev ≠ ("") → pyLower dev ≠ ("cuda") → cudaPatternMatch dev = true →
      resolveHwDevice d dev = .ok dev) ∧
    (dev ≠ ("") → pyLower dev ≠ ("cuda") → cudaPatternMatch dev = false →
      resolveHwDevice d dev = .error hwDeviceErrMsg) ∧
    (∀ (url : String) (eng : CFFIOAfterInit),
      dev ≠ ("") → pyLower dev ≠ ("cuda") → cudaPatternMatch dev = false →
      FFIOSession.init d
        { target_url := url, mode := ModeArg.enum FFIOMode.ENCODE,
          hw_device := dev } eng
        = (.error hwDeviceErrMsg, [])) := by
  have hempty : ∀ (x : String), x.data = [] → x = ("") := by
    intro x hx
    cases x with
    | mk l => cases hx; rfl
  have hlen : dev ≠ ("") → dev.data.length > 0 := by
    intro hx
    cases hd : dev.data with
    | nil => exact absurd (hempty dev hd) hx
    | cons c cs => simp [hd]
  refine ⟨?_, ?_, ?_, ?_, ?_⟩
  · intro h; subst h; rfl
  · intro h1 h2
    unfold resolveHwDevice
    rw [if_pos (hlen h1)]
    simp [h2]
  · intro h1 h2 h3
    unfold resolveHwDevice
    rw [if_pos (hlen h1)]
    simp [beq_eq_false_iff_ne.mpr h2, h3]
  · intro h1 h2 h3
    unfold resolveHwDevice
    rw [if_pos (hlen h1)]
    simp [beq_eq_false_iff_ne.mpr h2, h3]
  · intro url eng h1 h2 h3
    have herr : resolveHwDevice d dev = .error hwDeviceErrMsg := by
      unfold resolveHwDevice
      rw [if_pos (hlen h1)]
      simp [beq_eq_false_iff_ne.mpr h2, h3]
    have hmode : (FFIOMode.ENCODE == FFIOMode.DECODE) = false := rfl
    unfold FFIOSession.init
    simp [resolveMode, hmode, herr]

/-- C4 witness: the empty string keeps the default, "CUDA" canonicalizes,
"cuda:07" passes through, and "videotoolbox:0" fails construction with the
device validation error. -/
theorem hw_device_resolution_witness :
    resolveHwDevice ("cuda") ("") = .ok ("cuda") ∧
    resolveHwDevice ("cuda") ("CUDA") = .ok ("cuda:0") ∧
    resolveHwDevice ("cuda") ("cuda:07") = .ok ("cuda:07") ∧
    resolveHwDevice ("cuda") ("videotoolbox:0") = .error hwDeviceErrMsg ∧
    FFIOSession.init ("cuda")
      { target_url := ("x.mp4"), mode := ModeArg.enum FFIOMode.ENCODE,
        hw_device := ("videotoolbox:0") } engOk
      = (.error hwDeviceErrMsg, []) := by
  refine ⟨(hw_device_resolution ("cuda") ("")).1 rfl,
          (hw_device_resolution ("cuda") ("CUDA")).2.1 (by decide) (by decide),
          (hw_device_resolution ("cuda") ("cuda:07")).2.2.1
            (by decide) (by decide) (by decide),
          (hw_device_resolution ("cuda") ("videotoolbox:0")).2.2.2.1
            (by decide) (by decide) (by decide),
          (hw_device_resolution ("cuda") ("videotoolbox:0")).2.2.2.2
            ("x.mp4") engOk (by decide) (by decide) (by decide)⟩

/-- C5: mode-string resolution: a case-insensitive match of "decode" or
"decoder" resolves to Decode, a case-insensitive match of "encode" or
"encoder" resolves to Encode, and any other string makes construction fail
with the mode validation error. -/
theorem mode_string_resolution (ms : String) :
    (pyLower ms = ("decode") ∨ pyLower ms = ("decoder") →
      resolveMode (ModeArg.str ms) = .ok FFIOMode.DECODE) ∧
    (pyLower ms = ("encode") ∨ pyLower ms = ("encoder") →
      resolveMode (ModeArg.str ms) = .ok FFIOMode.ENCODE) ∧
    (pyLower ms ≠ ("decode") → pyLower ms ≠ ("decoder") →
     pyLower ms ≠ ("encode") → pyLower ms ≠ ("encoder") →
      resolveMode (ModeArg.str ms) = .error (modeErrMsg ms)) ∧
    (∀ (d url : String) (eng : CFFIOAfterInit),
      resolveMode (ModeArg.str ms) = .error (modeErrMsg ms) →
      FFIOSession.init d { target_url := url, mode := ModeArg.str ms } eng
        = (.error (modeErrMsg ms), [])) := by
  refine ⟨?_, ?_, ?_, ?_⟩
  · rintro (h | h) <;> simp [resolveMode, h]
  · rintro (h | h) <;> simp [resolveMode, h]
  · intro h1 h2 h3 h4
    simp [resolveMode, beq_eq_false_iff_ne.mpr h1, beq_eq_false_iff_ne.mpr h2,
          beq_eq_false_iff_ne.mpr h3, beq_eq_false_iff_ne.mpr h4]
  · intro d url eng herr
    unfold FFIOSession.init
    simp [herr]

/-- C5 witness: "DeCoDer" resolves to Decode, "Encode" to Encode, and
"transcode" fails construction with the mode validation error. -/
theorem mode_string_resolution_witness :
    resolveMode (ModeArg.str ("DeCoDer")) = .ok FFIOMode.DECODE ∧
    resolveMode (ModeArg.str ("Encode")) = .ok FFIOMode.ENCODE ∧
    resolveMode (ModeArg.str ("transcode")) = .error (modeErrMsg ("transcode")) ∧
    FFIOSession.init ("cuda")
      { target_url := ("x.mp4"), mode := ModeArg.str ("transcode") } engOk
      = (.error (modeErrMsg ("transcode")), []) := by
  have h3 := mode_string_resolution ("transcode")
  have he := h3.2.2.1 (by decide) (by decide) (by decide) (by decide)
  exact ⟨(mode_string_resolution ("DeCoDer")).1 (Or.inr (by decide)),
         (mode_string_resolution ("Encode")).2.1 (Or.inl (by decide)), he,
         h3.2.2.2 ("cuda") ("x.mp4") engOk he⟩

/-- C6: the binding-side frame counter `frame_seq_py` is 0 after
construction, is bumped by exactly 1 on each decode or encode call that
succeeds (truthy frame handle, true encode result, truthy shm-encode
status), is unchanged by each failed call, and is reset to 0 by
`release_memory`. -/
theorem frame_counter_behaviour :
    (∀ (d : String) (a : InitArgs) (eng : CFFIOAfterInit) (s : FFIOSession)
        (tr : List EngineCall),
      FFIOSession.init d a eng = (.ok s, tr) → s.frame_seq_py = 0) ∧
    (∀ (s : FFIOSession) (f : CFFIOFrame) (fl : Option String)
        (out : FFIOSession × CFFIOFrame × List EngineCall),
      FFIOSession.decode_one_frame s f fl = .ok out →
      out.1.frame_seq_py
        = if f.truthy then s.frame_seq_py + 1 else s.frame_seq_py) ∧
    (∀ (s : FFIOSession) (f : CFFIOFrame) (off : Int) (fl : Option String)
        (out : FFIOSession × CFFIOFrame × List EngineCall),
      FFIOSession.decode_one_frame_to_shm s f off fl = .ok out →
      out.1.frame_seq_py
        = if f.truthy then s.frame_seq_py + 1 else s.frame_seq_py) ∧
    (∀ (s : FFIOSession) (ret : Int) (img : RGBImage) (m : Option String)
        (out : FFIOSession × Bool × List EngineCall),
      FFIOSession.encode_one_frame s ret img m = .ok out →
      out.1.frame_seq_py
        = if out.2.1 then s.frame_seq_py + 1 else s.frame_seq_py) ∧
    (∀ (s : FFIOSession) (ret off : Int) (m : Option String)
        (out : FFIOSession × Int × List EngineCall),
      FFIOSession.encode_one_frame_from_shm s ret off m = .ok out →
      out.1.frame_seq_py
        = if out.2.1 ≠ 0 then s.frame_seq_py + 1 else s.frame_seq_py) ∧
    (∀ (s : FFIOSession), (FFIOSession.release_memory s).1.frame_seq_py = 0) := by
  refine ⟨?_, ?_, ?_, ?_, ?_, ?_⟩
  · intro d a eng s tr h
    obtain ⟨mode, dev, hm, hdc, hd, hs, ht⟩ := init_ok_elim h
    subst hs
    exact (openOutcome_session_base mode a dev _ eng).1
  · intro s f fl out h
    simp only [FFIOSession.decode_one_frame, Except.ok.injEq] at h
    subst h
    split <;> rfl
  · intro s f off fl out h
    simp only [FFIOSession.decode_one_frame_to_shm, Except.ok.injEq] at h
    subst h
    split <;> rfl
  · intro s ret img m out h
    cases img with
    | bytes data =>
      simp only [FFIOSession.encode_one_frame, FFIOSession.encode_bytes_branch] at h
      split at h <;> (injection h with h; subst h; simp)
    | ndarray nd =>
      simp only [FFIOSession.encode_one_frame, FFIOSession.encode_bytes_branch] at h
      split at h <;> (injection h with h; subst h; simp)
    | image =>
      simp only [FFIOSession.encode_one_frame] at h
      injection h with h; subst h; simp
    | other =>
      simp only [FFIOSession.encode_one_frame] at h
      injection h with h; subst h; simp
  · intro s ret off m out h
    simp only [FFIOSession.encode_one_frame_from_shm] at h
    split at h
    next hcond =>
      injection h with h; subst h
      simp [bne_iff_ne.mp hcond]
    next hcond =>
      injection h with h; subst h
      have hz : ret = 0 := by simpa using hcond
      simp [hz]
  · intro s
    rfl

/-- The result of a successful truthy decode on the sample session. -/
def decodeTrueOut : FFIOSession × CFFIOFrame × List EngineCall :=
  ({ sampleSession with frame_seq_py := sampleSession.frame_seq_py + 1 },
   { truthy := true }, [EngineCall.decodeOneFrame none])

/-- C6 witness: after construction the counter is 0, a truthy decode on
the sample session bumps it to 1, and release resets it to 0. -/
theorem frame_counter_behaviour_witness :
    fileSessionOk.frame_seq_py = 0 ∧
    decodeTrueOut.1.frame_seq_py = 1 ∧
    (FFIOSession.release_memory sampleSession).1.frame_seq_py = 0 := by
  have h := frame_counter_behaviour
  refine ⟨h.1 ("cuda") fileArgs engOk fileSessionOk fileTraceOk (by decide),
          ?_, h.2.2.2.2.2 sampleSession⟩
  have hd := h.2.1 sampleSession { truthy := true } none decodeTrueOut (by decide)
  exact hd.trans (by decide)

/-- C7 counterexample: at the identical engine status 0, `encode_one_frame`
reports success True and bumps the counter to 1, while
`encode_one_frame_from_shm` returns the falsy status 0 and leaves the
counter at 0 — so for the same engine status result the two calls neither
return the same success value nor update the frame counter identically,
contradicting the claimed identical contract. -/
theorem encode_shm_status_counterexample :
    ((FFIOSession.encode_one_frame sampleSession 0 (RGBImage.bytes [0]) none).toOption.map
        (fun o => (o.2.1, o.1.frame_seq_py))) = some (true, 1) ∧
    ((FFIOSession.encode_one_frame_from_shm sampleSession 0 0 none).toOption.map
        (fun o => (o.2.1, o.1.frame_seq_py))) = some (0, 0) := by decide

/-- C7 (amended): each of the two encode entry points bumps the counter
exactly when its own result is truthy, but relative to the raw engine
status they use opposite success conventions: `encode_one_frame` reports
True iff the status is 0, while `encode_one_frame_from_shm` returns the
status itself (truthy iff nonzero) — so at any equal engine status the two
report opposite success. -/
theorem encode_shm_contract (s : FFIOSession) (ret off : Int) (data : List Nat)
    (m : Option String) :
    (∀ (out : FFIOSession × Bool × List EngineCall),
      FFIOSession.encode_one_frame s ret (RGBImage.bytes data) m = .ok out →
      (out.2.1 = true ↔ ret = 0) ∧
      out.1.frame_seq_py
        = if out.2.1 then s.frame_seq_py + 1 else s.frame_seq_py) ∧
    (∀ (out : FFIOSession × Int × List EngineCall),
      FFIOSession.encode_one_frame_from_shm s ret off m = .ok out →
      out.2.1 = ret ∧
      out.1.frame_seq_py
        = if out.2.1 ≠ 0 then s.frame_seq_py + 1 else s.frame_seq_py) ∧
    (∀ (out1 : FFIOSession × Bool × List EngineCall)
        (out2 : FFIOSession × Int × List EngineCall),
      FFIOSession.encode_one_frame s ret (RGBImage.bytes data) m = .ok out1 →
      FFIOSession.encode_one_frame_from_shm s ret off m = .ok out2 →
      (out1.2.1 = true ↔ out2.2.1 = 0)) := by
  have hbytes : ∀ (out : FFIOSession × Bool × List EngineCall),
      FFIOSession.encode_one_frame s ret (RGBImage.bytes data) m = .ok out →
      (out.2.1 = true ↔ ret = 0) ∧
      out.1.frame_seq_py
        = if out.2.1 then s.frame_seq_py + 1 else s.frame_seq_py := by
    intro out h
    simp only [FFIOSession.encode_one_frame, FFIOSession.encode_bytes_branch] at h
    split at h
    next hr =>
      injection h with h; subst h
      simp [beq_iff_eq.mp hr]
    next hr =>
      injection h with h; subst h
      have hne : ret ≠ 0 := by simpa using hr
      simp [hne]
  have hshm : ∀ (out : FFIOSession × Int × List EngineCall),
      FFIOSession.encode_one_frame_from_shm s ret off m = .ok out →
      out.2.1 = ret ∧
      out.1.frame_seq_py
        = if out.2.1 ≠ 0 then s.frame_seq_py + 1 else s.frame_seq_py := by
    intro out h
    simp only [FFIOSession.encode_one_frame_from_shm] at h
    split at h
    next hcond =>
      injection h with h; subst h
      simp [bne_iff_ne.mp hcond]
    next hcond =>
      injection h with h; subst h
      have hz : ret = 0 := by simpa using hcond
      simp [hz]
  refine ⟨hbytes, hshm, ?_⟩
  intro out1 out2 h1 h2
  rw [(hshm out2 h2).1]
  exact (hbytes out1 h1).1

/-- The result of `encode_one_frame` on the sample session at engine
status 0. -/
def encodeOkOut : FFIOSession × Bool × List EngineCall :=
  ({ sampleSession with frame_seq_py := sampleSession.frame_seq_py + 1 },
   true, [EngineCall.encodeOneFrame [0] none 0])

/-- The result of `encode_one_frame_from_shm` on the sample session at
engine status 0. -/
def shmZeroOut : FFIOSession × Int × List EngineCall :=
  (sampleSession, 0, [EngineCall.encodeOneFrameFromShm 0 none 0])

/-- C7 witness: at engine status 0 the in-process encode reports True with
counter 1 while the shm encode returns 0 with counter 0. -/
theorem encode_shm_contract_witness :
    encodeOkOut.2.1 = true ∧ encodeOkOut.1.frame_seq_py = 1 ∧
    shmZeroOut.2.1 = 0 ∧ shmZeroOut.1.frame_seq_py = 0 := by
  have h := encode_shm_contract sampleSession 0 0 [0] none
  have h1 := h.1 encodeOkOut (by decide)
  have h2 := h.2.1 shmZeroOut (by decide)
  exact ⟨h1.1.mpr rfl, h1.2.trans (by decide), h2.1, h2.2.trans (by decide)⟩

/-- C8: a numpy-array input is encoded exactly as its `tobytes`
serialization — same result and same counter effect — and a structured
image-object input returns False without any engine call. -/
theorem encode_input_dispatch (s : FFIOSession) (ret : Int) (nd : NDArray)
    (m : Option String) :
    FFIOSession.encode_one_frame s ret (RGBImage.ndarray nd) m
      = FFIOSession.encode_one_frame s ret (RGBImage.bytes nd.tobytes) m ∧
    FFIOSession.encode_one_frame s ret RGBImage.image m = .ok (s, false, []) :=
  ⟨rfl, rfl⟩

/-- C9: a decode call never raises: it always returns (`.ok`) the engine's
frame handle, whose falsy truthiness signals the failure, and the call
issues no cleanup (finalize or delete) engine calls — on the failure path
the session state is left untouched. -/
theorem decode_no_raise_no_cleanup (s : FFIOSession) (f : CFFIOFrame)
    (fl : Option String) :
    (FFIOSession.decode_one_frame s f fl).isOk = true ∧
    (∀ (out : FFIOSession × CFFIOFrame × List EngineCall),
      FFIOSession.decode_one_frame s f fl = .ok out →
      out.2.1 = f ∧
      EngineCall.finalizeFFIOCall ∉ out.2.2 ∧ EngineCall.deleteFFIOCall ∉ out.2.2 ∧
      (f.truthy = false → out.1 = s)) := by
  refine ⟨rfl, ?_⟩
  intro out h
  simp only [FFIOSession.decode_one_frame, Except.ok.injEq] at h
  subst h
  refine ⟨rfl, by simp, by simp, ?_⟩
  intro hf
  simp [hf]

/-- The result of a falsy decode on the sample session. -/
def decodeFalseOut : FFIOSession × CFFIOFrame × List EngineCall :=
  (sampleSession, { truthy := false }, [EngineCall.decodeOneFrame none])

/-- C9 witness: a falsy decode still returns a result (no raise), hands
back the falsy frame, and leaves the session unchanged. -/
theorem decode_no_raise_no_cleanup_witness :
    (FFIOSession.decode_one_frame sampleSession { truthy := false } none).isOk = true ∧
    decodeFalseOut.2.1 = ({ truthy := false } : CFFIOFrame) ∧
    decodeFalseOut.1 = sampleSession := by
  have h := decode_no_raise_no_cleanup sampleSession { truthy := false } none
  have h2 := h.2 decodeFalseOut (by decide)
  exact ⟨h.1, h2.1, h2.2.2.2 rfl⟩

/-- C10: constructing with `pix_fmt_hw_enabled = true` while
`hw_enabled = false` stores True on the session's attribute but passes
False as the pixel-format flag of the engine open call. -/
theorem pix_fmt_hw_downgrade (d : String) (a : InitArgs)
    (eng : CFFIOAfterInit) (s : FFIOSession) (tr : List EngineCall)
    (h : FFIOSession.init d a eng = (.ok s, tr))
    (hp : a.pix_fmt_hw_enabled = true) (hw : a.hw_enabled = false) :
    s.pix_fmt_hw_enabled = true ∧
    initCallOf tr ≠ none ∧
    (∀ (args : InitCallArgs), initCallOf tr = some args →
      args.pix_fmt_hw_enabled = false) := by
  obtain ⟨mode, dev, hm, hdc, hd, hs, ht⟩ := init_ok_elim h
  subst hs; subst ht
  refine ⟨?_, ?_, ?_⟩
  · rw [(openOutcome_session_base mode a dev _ eng).2.1, hp]
  · rw [openOutcome_initCall]; simp
  · intro args hcall
    rw [openOutcome_initCall] at hcall
    injection hcall with hargs
    rw [← hargs]
    show pixFmtPassed a.hw_enabled a.pix_fmt_hw_enabled = false
    simp [pixFmtPassed, hp, hw]

/-- Construction arguments requesting the hardware pixel format without
hardware acceleration. -/
def pixArgs : InitArgs :=
  { target_url := ("file.mp4"), pix_fmt_hw_enabled := true }

/-- The session built from `pixArgs`: like the plain file session but with
the stored pixel-format attribute True. -/
def pixSession : FFIOSession :=
  { fileSessionOk with pix_fmt_hw_enabled := true }

/-- C10 witness: the session stores True while the traced open call (the
same as for the plain file construction) carries False. -/
theorem pix_fmt_hw_downgrade_witness :
    pixSession.pix_fmt_hw_enabled = true ∧
    fileInitCallArgs.pix_fmt_hw_enabled = false := by
  have h := pix_fmt_hw_downgrade ("cuda") pixArgs engOk pixSession fileTraceOk
    (by decide) (by decide) (by decide)
  exact ⟨h.1, h.2.2 fileInitCallArgs (by decide)⟩

end FfioSpec
